import Mathlib

set_option maxHeartbeats 1000000
set_option maxRecDepth 4000

/-!
Shallow embedding of the keyword-rank-checker flow of this repository
(src/src/ai/flows/check-keyword-ranking.ts, with the simpler variant in
src/unnamed/part_001).  The searchWeb tool is embedded twice, at two levels
of abstraction over the same branch structure of the source:

* `searchWeb` returns the HTML string the tool produces, inside `Except` so
  that exception propagation is visible (the fetch and the JSON parse may
  throw; the try/catch of the source maps every thrown error to an HTML
  string).
* `searchWebOutcome` maps the same branches into the tagged `SearchOutcome`
  vocabulary of the specification, together with the number of outbound
  fetch calls performed.

The environment the tool runs against is explicit: `Env` carries the two
process-environment credentials, `NetBehavior` is the behaviour of the
outbound fetch (the mock transport).

The ranking-extraction step of the repository is a generative-model prompt
(checkRankingPrompt), not deterministic code under src, so `extractRanking`
and `searchResultPage` are modelled from the specification (section 4.2);
their doc comments say so.
-/

/-- One search result item as found in the provider JSON response: the
fields link, title and snippet of each element of data.items. -/
structure SearchItem where
  link : String
  title : String
  snippet : String
deriving Repr, DecidableEq

/-- A search result item together with its 1-based rank, as rendered by the
searchWeb tool (the source writes Rank: index + 1 for each item). -/
structure RankedItem where
  rank : Nat
  title : String
  link : String
  snippet : String
deriving Repr, DecidableEq

/-- Process environment of the tool: GOOGLE_API_KEY and
GOOGLE_CUSTOM_SEARCH_ENGINE_ID, each possibly unset. -/
structure Env where
  apiKey : Option String
  cx : Option String
deriving Repr, DecidableEq

/-- Behaviour of the outbound fetch of one searchWeb call:
the fetch itself throws; the response has a non-success status (with its
body text); the response is successful but the JSON parse throws; or the
response is successful and parses to a JSON body whose items array is
absent or is the given list. -/
inductive NetBehavior where
  | fetchThrows (msg : String)
  | httpError (status : Nat) (body : String)
  | okParseThrows (msg : String)
  | okJson (items : Option (List SearchItem))
deriving Repr, DecidableEq

/-- The tagged outcome of one search attempt (spec section 3). -/
inductive SearchOutcome where
  | results (items : List RankedItem) (resultCount : Nat)
  | empty
  | configError (msg : String)
  | providerError (status : Nat) (body : String)
  | executionError (msg : String)
deriving Repr, DecidableEq

/-- Whitespace characters removed by trimming: tab, line feed, vertical
tab, form feed, carriage return, space. -/
def isWsChar (c : Char) : Bool :=
  c.toNat == 32 || (9 ≤ c.toNat && c.toNat ≤ 13)

/-- Trim of a string, by character list: drop whitespace from both ends. -/
def trimStr (s : String) : String :=
  String.mk (((s.data.dropWhile isWsChar).reverse.dropWhile isWsChar).reverse)

/-- Lower-casing of a string, by character list (ASCII letters). -/
def toLowerCase (s : String) : String :=
  String.mk (s.data.map Char.toLower)

/-- Credential check for the API key, from searchWeb:
not set or the empty string (JavaScript falsiness of a possibly undefined
string), the placeholder sentinel, or blank after trimming. -/
def badApiKey : Option String → Bool
  | none => true
  | some s => s == "" || s == "YOUR_GOOGLE_API_KEY_HERE" || trimStr s == ""

/-- Credential check for the custom search engine id, from searchWeb. -/
def badCx : Option String → Bool
  | none => true
  | some s => s == "" || s == "YOUR_CUSTOM_SEARCH_ENGINE_ID_HERE" || trimStr s == ""

/-- Concatenation of the images of a list-valued function, written out so
that induction over it is self-contained. -/
def flatMapL (f : α → List β) : List α → List β
  | [] => []
  | a :: t => f a ++ flatMapL f t

/-- UTF-8 bytes of one character, as natural numbers below 256. -/
def utf8Bytes (c : Char) : List Nat :=
  if c.toNat < 128 then [c.toNat]
  else if c.toNat < 2048 then [192 + c.toNat / 64, 128 + c.toNat % 64]
  else if c.toNat < 65536 then
    [224 + c.toNat / 4096, 128 + c.toNat / 64 % 64, 128 + c.toNat % 64]
  else
    [240 + c.toNat / 262144, 128 + c.toNat / 4096 % 64, 128 + c.toNat / 64 % 64,
     128 + c.toNat % 64]

/-- Bytes left unescaped by JavaScript encodeURIComponent: the ASCII
alphanumerics and the marks minus, underscore, dot, bang, tilde, star,
single quote and the two parentheses. -/
def isUnreservedByte (b : Nat) : Bool :=
  (65 ≤ b && b ≤ 90) || (97 ≤ b && b ≤ 122) || (48 ≤ b && b ≤ 57) ||
  b == 45 || b == 95 || b == 46 || b == 33 || b == 126 || b == 42 ||
  b == 39 || b == 40 || b == 41

/-- Upper-case hexadecimal digit for a value below 16. -/
def hexDigit (n : Nat) : Char :=
  if n < 10 then Char.ofNat (48 + n) else Char.ofNat (55 + n)

/-- Percent-encoding of one byte: the byte itself when unreserved, and
otherwise a percent sign followed by the two hexadecimal digits. -/
def encByteN (b : Nat) : List Char :=
  if isUnreservedByte b then [Char.ofNat b]
  else [Char.ofNat 37, hexDigit (b / 16), hexDigit (b % 16)]

/-- JavaScript encodeURIComponent: UTF-8 encode the string, then
percent-encode every byte outside the unreserved set. -/
def encodeURIComponent (s : String) : String :=
  String.mk (flatMapL encByteN (flatMapL utf8Bytes s.data))

/-- Rank assignment starting after n items: each item receives rank
position + 1, as in the map over data.items of the source. -/
def rankItemsFrom (n : Nat) : List SearchItem → List RankedItem
  | [] => []
  | it :: rest =>
    { rank := n + 1, title := it.title, link := it.link, snippet := it.snippet } ::
      rankItemsFrom (n + 1) rest

/-- The source writes data.items.map with Rank: index + 1, so ranks are the
1-based positions in provider order. -/
def rankItems (l : List SearchItem) : List RankedItem := rankItemsFrom 0 l

/-- The three synthetic items of the placeholder page searchWeb returns for
a platform other than google, links and texts from the source template. -/
def placeholderItems (query platform : String) : List SearchItem :=
  [ { link := "https://example.com/placeholder-rank1-" ++ encodeURIComponent query
    , title := "Placeholder Top Result for " ++ query ++ " on " ++ platform
    , snippet := "This is a simulated top ranking result for your query on " ++ platform ++ "." }
  , { link := "https://another-example.com/placeholder-rank2-" ++ encodeURIComponent query
    , title := "Placeholder Second Result for " ++ query ++ " on " ++ platform
    , snippet := "Another simulated search result, indicating some competition or related content." }
  , { link := "https://yet-another-example.com/placeholder-rank3-" ++ encodeURIComponent query
    , title := "Placeholder Third Result for " ++ query ++ " on " ++ platform
    , snippet := "Further simulated content to provide some ranking context." } ]

/-- Outcome-level view of the searchWeb tool: the same branch structure as
the source, mapped into the SearchOutcome vocabulary of the specification.
The second component counts the outbound fetch calls performed. -/
def searchWebOutcome (query platform country : String) (env : Env)
    (net : NetBehavior) : SearchOutcome × Nat :=
  if toLowerCase platform ≠ "google" then
    (.results (rankItems (placeholderItems query platform)) (placeholderItems query platform).length, 0)
  else if badApiKey env.apiKey then
    (.configError "Google API Key (GOOGLE_API_KEY) is not configured or is set to a placeholder value in the backend.", 0)
  else if badCx env.cx then
    (.configError "Google Custom Search Engine ID (GOOGLE_CUSTOM_SEARCH_ENGINE_ID) is not configured or is set to a placeholder value in the backend.", 0)
  else
    (match net with
      | .fetchThrows m => .executionError (if m == "" then "Unknown error" else m)
      | .httpError st body => .providerError st body
      | .okParseThrows m => .executionError (if m == "" then "Unknown error" else m)
      | .okJson none => .empty
      | .okJson (some items) =>
          if items.length == 0 then .empty
          else .results (rankItems items) items.length
    , 1)

/-- A single quote character, used inside the HTML template strings. -/
def sQuote : String := String.singleton (Char.ofNat 39)

/-- The request URL of the live search, from the source: key, cx,
URL-encoded query, lower-cased country as gl, and the fixed num=20 cap. -/
def searchUrl (apiKey cx query country : String) : String :=
  "https://www.googleapis.com/customsearch/v1?key=" ++ apiKey ++ "&cx=" ++ cx ++
  "&q=" ++ encodeURIComponent query ++ "&gl=" ++ toLowerCase country ++ "&num=20"

/-- HTML of one ranked item, condensed to one line from the source
template (the anchor markup around title, snippet and URL). -/
def rankedItemHtml (it : RankedItem) : String :=
  "<li><p><strong>Rank: " ++ toString it.rank ++ "</strong></p><p><a href=\"" ++
  it.link ++ "\" target=\"_blank\" rel=\"noopener noreferrer\">" ++ it.title ++
  "</a></p><p>" ++ it.snippet ++ "</p><p><small>URL: " ++ it.link ++ "</small></p></li>"

/-- HTML returned for a platform other than google: the placeholder page
with the three synthetic items. -/
def placeholderHtml (query platform : String) : String :=
  "<html><body><h1>Search Results for " ++ query ++ " (Placeholder on " ++ platform ++
  ")</h1><p>Platform " ++ sQuote ++ platform ++ sQuote ++
  " is not supported by live search. This is placeholder data.</p><ol>" ++
  String.join ((rankItems (placeholderItems query platform)).map rankedItemHtml) ++
  "</ol></body></html>"

/-- HTML returned when the API key credential check fails. -/
def configKeyHtml : String :=
  "<html><body><h3>Configuration Error</h3><p>Google API Key (GOOGLE_API_KEY) is not configured or is set to a placeholder value in the backend. Please set it in the .env file.</p></body></html>"

/-- HTML returned when the search-engine-id credential check fails. -/
def configCxHtml : String :=
  "<html><body><h3>Configuration Error</h3><p>Google Custom Search Engine ID (GOOGLE_CUSTOM_SEARCH_ENGINE_ID) is not configured or is set to a placeholder value in the backend. Please set it in the .env file. Without it, Google search will not work.</p></body></html>"

/-- HTML returned for a non-success HTTP status, carrying the status and
the response body text. -/
def apiErrorHtml (status : Nat) (body : String) : String :=
  "<html><body><h3>API Error</h3><p>Failed to fetch search results from Google. Status: " ++
  toString status ++ ". Details: " ++ body ++ "</p></body></html>"

/-- HTML returned for a successful response with no items. -/
def noResultsHtml (query country : String) : String :=
  "<html><body><h1>Search Results for " ++ query ++ "</h1><p>No results found for " ++
  sQuote ++ query ++ sQuote ++ " on Google in " ++ country ++ ".</p></body></html>"

/-- HTML returned for a successful response with items: the joined ranked
item markup, wrapped in the results page. -/
def resultsHtml (query country : String) (items : List SearchItem) : String :=
  "<html><body><h1>Search Results for " ++ query ++ "</h1><p>Displaying top " ++
  toString items.length ++ " results for " ++ sQuote ++ query ++ sQuote ++ " on Google in " ++
  country ++ ":</p><ol>" ++ String.join ((rankItems items).map rankedItemHtml) ++
  "</ol></body></html>"

/-- HTML produced by the catch clause of searchWeb: the exception message,
with the Unknown error fallback of the source for an empty message. -/
def execErrorHtml (m : String) : String :=
  "<html><body><h3>Execution Error</h3><p>An exception occurred while trying to fetch search results: " ++
  (if m == "" then "Unknown error" else m) ++ "</p></body></html>"

/-- Body of the try block of searchWeb: the fetch and the JSON parse may
throw (Except.error); every other path produces the HTML string. -/
def tryBlock (query country : String) (net : NetBehavior) : Except String String :=
  match net with
  | .fetchThrows m => .error m
  | .httpError st body => .ok (apiErrorHtml st body)
  | .okParseThrows m => .error m
  | .okJson none => .ok (noResultsHtml query country)
  | .okJson (some items) =>
      if items.length == 0 then .ok (noResultsHtml query country)
      else .ok (resultsHtml query country items)

/-- The searchWeb tool at its string interface.  The Except type records
whether an exception escapes the function: the try/catch of the source maps
every error of the try block to the execution-error HTML, so the function
is expected never to produce Except.error. -/
def searchWeb (query platform country : String) (env : Env)
    (net : NetBehavior) : Except String String :=
  if toLowerCase platform ≠ "google" then .ok (placeholderHtml query platform)
  else if badApiKey env.apiKey then .ok configKeyHtml
  else if badCx env.cx then .ok configCxHtml
  else
    match tryBlock query country net with
    | .ok s => .ok s
    | .error e => .ok (execErrorHtml e)

/-- Modelled from the spec: the canonical search results page URL of
section 4.2, provider search base, URL-encoded keyword as the q parameter
and the country as the gl region parameter (the repository constructs this
URL inside the generative prompt, not in code under src). -/
def searchResultPage (keyword country : String) : String :=
  "https://www.google.com/search?q=" ++ encodeURIComponent keyword ++ "&gl=" ++ country

/-- Per-keyword ranking record of the output schema: keyword, nullable
ranking, nullable ranked URL, and the search results page URL. -/
structure RankingResult where
  keyword : String
  ranking : Option Nat
  rankedUrl : Option String
  searchResultPage : String
deriving Repr, DecidableEq

/-- Modelled from the spec: the Ranking Extraction Contract of section 4.2
(the repository implements this step as the generative checkRankingPrompt,
not as deterministic code under src).  Results gives ranking 1 and the
first item link; when a target URL is supplied, the matching item rank and
link, or null and null when no item link equals the target; Empty and
every error variant give null and null; searchResultPage is always the
canonical URL, independently of the outcome. -/
def extractRanking (keyword country : String) (target : Option String)
    (o : SearchOutcome) : RankingResult :=
  let pair : Option Nat × Option String :=
    match o, target with
    | .results (it :: _) _, none => (some 1, some it.link)
    | .results items _, some t =>
        (match items.find? (fun it => it.link == t) with
         | some it => (some it.rank, some it.link)
         | none => (none, none))
    | _, _ => (none, none)
  { keyword := keyword, ranking := pair.1, rankedUrl := pair.2,
    searchResultPage := searchResultPage keyword country }

/-- ASCII alphanumeric character, by code point ranges. -/
def isAsciiAlphanum (c : Char) : Bool :=
  (65 ≤ c.toNat && c.toNat ≤ 90) || (97 ≤ c.toNat && c.toNat ≤ 122) ||
  (48 ≤ c.toNat && c.toNat ≤ 57)

/-- Characters that may appear literally in a URL: ASCII alphanumerics,
the unreserved marks, the reserved separators, the percent sign and the
bracket characters. -/
def isUrlSafeChar (c : Char) : Bool :=
  isAsciiAlphanum c ||
  [45, 95, 46, 33, 126, 42, 40, 41, 39, 59, 47, 63, 58, 64, 38, 61, 43,
   36, 44, 37, 35, 91, 93].contains c.toNat

/-- Hexadecimal digit character (either case). -/
def isHexDigitChar (c : Char) : Bool :=
  (48 ≤ c.toNat && c.toNat ≤ 57) || (65 ≤ c.toNat && c.toNat ≤ 70) ||
  (97 ≤ c.toNat && c.toNat ≤ 102)

/-- Every percent sign in the character list starts a full percent triple:
a percent sign followed by two hexadecimal digits. -/
def validPercents : List Char → Bool
  | [] => true
  | c :: rest =>
      if c.toNat = 37 then
        match rest with
        | a :: b :: rest2 => isHexDigitChar a && isHexDigitChar b && validPercents rest2
        | _ => false
      else validPercents rest

/-- The characters of the absolute https scheme prefix. -/
def httpsChars : List Char := "https://".data

/-- Syntactic validity of a fully URL-encoded absolute URL: it starts with
the https scheme, every character is a literal URL character, and every
percent sign starts a full percent triple. -/
def isValidEncodedUrl (s : String) : Bool :=
  decide (httpsChars <+: s.data) && s.data.all isUrlSafeChar && validPercents s.data

/-- One related-keyword suggestion as raw data, every field possibly
absent, as it stands before schema validation. -/
structure RawSuggestion where
  relatedKeyword : Option String
  competition : Option String
  searchVolume : Option String
  last30DaysSearches : Option String
  last24HoursSearches : Option String
deriving Repr, DecidableEq

/-- The four legal values of the competition enum of
RelatedKeywordMetricsSchema. -/
def competitionLevels : List String := ["High", "Medium", "Low", "N/A"]

/-- Validation of one suggestion against RelatedKeywordMetricsSchema: all
five fields must be present, and competition must be one of the four enum
values.  The schema places no other constraint on a suggestion. -/
def validSuggestion (r : RawSuggestion) : Bool :=
  r.relatedKeyword.isSome &&
  (match r.competition with
   | some c => competitionLevels.contains c
   | none => false) &&
  r.searchVolume.isSome && r.last30DaysSearches.isSome && r.last24HoursSearches.isSome

/-- Validation of the relatedKeywordSuggestions field: the field is
optional, and when present every element must validate.  The schema places
no constraint on the length of the array. -/
def validSuggestions : Option (List RawSuggestion) → Bool
  | none => true
  | some l => l.all validSuggestion

/-- Raw output of the checkRankingPrompt step of the extended variant,
before the flow normalizes it: either field may be absent. -/
structure RawCheckOutput where
  originalKeywordRankings : Option (List RankingResult)
  relatedKeywordSuggestions : Option (List RawSuggestion)
deriving Repr, DecidableEq

/-- The checkKeywordRankingFlow of the extended variant: when the prompt
yields no output at all, fall back to the empty result set; otherwise pass
each field through, replacing an absent field by the empty array (an array
is always truthy in JavaScript, so the conditional of the source is
exactly getD). -/
def checkKeywordRankingFlow (promptOut : Option RawCheckOutput) : RawCheckOutput :=
  match promptOut with
  | none => { originalKeywordRankings := some [], relatedKeywordSuggestions := some [] }
  | some output =>
      { originalKeywordRankings := some (output.originalKeywordRankings.getD [])
      , relatedKeywordSuggestions := some (output.relatedKeywordSuggestions.getD []) }

/-- The checkKeywordRankingFlow of the simpler variant
(src/unnamed/part_001): when the prompt yields no output, return the empty
array; otherwise return the output unchanged. -/
def checkKeywordRankingFlowSimple (promptOut : Option (List RankingResult)) :
    List RankingResult :=
  match promptOut with
  | none => []
  | some output => output

/-- A fully populated related-keyword suggestion, used as a concrete
schema-accepted value. -/
def sampleSuggestion : RawSuggestion :=
  { relatedKeyword := some "best laptops"
  , competition := some "High"
  , searchVolume := some "1K-10K/month"
  , last30DaysSearches := some "Stable"
  , last24HoursSearches := some "High activity" }

theorem rankItemsFrom_length (n : Nat) (l : List SearchItem) :
    (rankItemsFrom n l).length = l.length := by
  induction l generalizing n with
  | nil => rfl
  | cons a t ih => simp [rankItemsFrom, ih]

theorem rankItemsFrom_map_link (n : Nat) (l : List SearchItem) :
    (rankItemsFrom n l).map RankedItem.link = l.map SearchItem.link := by
  induction l generalizing n with
  | nil => rfl
  | cons a t ih => simp [rankItemsFrom, ih]

theorem rankItemsFrom_rank (n : Nat) (l : List SearchItem) (i : Nat)
    (hi : i < (rankItemsFrom n l).length) :
    ((rankItemsFrom n l).get ⟨i, hi⟩).rank = n + i + 1 := by
  induction l generalizing n i with
  | nil => simp [rankItemsFrom] at hi
  | cons a t ih =>
    cases i with
    | zero => rfl
    | succ j =>
      have hj : j < (rankItemsFrom (n + 1) t).length := by
        simpa [rankItemsFrom] using hi
      have := ih (n + 1) j hj
      simpa [rankItemsFrom, Nat.add_assoc, Nat.add_comm, Nat.add_left_comm] using this

theorem char_toNat_lt (c : Char) : c.toNat < 1114112 := by
  have h := c.valid
  simp only [UInt32.isValidChar, Nat.isValidChar] at h
  rcases h with h | ⟨h1, h2⟩
  · exact Nat.lt_trans h (by norm_num)
  · exact h2

theorem utf8Bytes_lt (c : Char) : ∀ b ∈ utf8Bytes c, b < 256 := by
  have h := char_toNat_lt c
  intro b hb
  unfold utf8Bytes at hb
  split_ifs at hb with h1 h2 h3
  · simp at hb; omega
  · have d1 : c.toNat / 64 < 32 := by omega
    have d2 : c.toNat % 64 < 64 := Nat.mod_lt _ (by norm_num)
    simp at hb
    rcases hb with hb | hb <;> omega
  · have d1 : c.toNat / 4096 < 16 := by omega
    have d2 : c.toNat / 64 % 64 < 64 := Nat.mod_lt _ (by norm_num)
    have d3 : c.toNat % 64 < 64 := Nat.mod_lt _ (by norm_num)
    simp at hb
    rcases hb with hb | hb | hb <;> omega
  · have d1 : c.toNat / 262144 < 5 := by omega
    have d2 : c.toNat / 4096 % 64 < 64 := Nat.mod_lt _ (by norm_num)
    have d3 : c.toNat / 64 % 64 < 64 := Nat.mod_lt _ (by norm_num)
    have d4 : c.toNat % 64 < 64 := Nat.mod_lt _ (by norm_num)
    simp at hb
    rcases hb with hb | hb | hb | hb <;> omega

theorem mem_flatMapL {f : α → List β} {l : List α} {b : β}
    (hb : b ∈ flatMapL f l) : ∃ a ∈ l, b ∈ f a := by
  induction l with
  | nil => simp [flatMapL] at hb
  | cons a t ih =>
    simp only [flatMapL, List.mem_append] at hb
    rcases hb with hb | hb
    · exact ⟨a, List.mem_cons_self a t, hb⟩
    · obtain ⟨x, hx, hbx⟩ := ih hb
      exact ⟨x, List.mem_cons_of_mem a hx, hbx⟩

theorem utf8_bytes_lt (s : String) : ∀ b ∈ flatMapL utf8Bytes s.data, b < 256 := by
  intro b hb
  obtain ⟨c, _, hbc⟩ := mem_flatMapL hb
  exact utf8Bytes_lt c b hbc

theorem unreserved_char_facts :
    ∀ b : Nat, b < 256 → isUnreservedByte b = true →
      (Char.ofNat b).toNat = b ∧ (Char.ofNat b).toNat ≠ 37 ∧
        isUrlSafeChar (Char.ofNat b) = true := by decide

theorem hexDigit_facts : ∀ x : Nat, x < 16 →
    isHexDigitChar (hexDigit x) = true ∧ (hexDigit x).toNat ≠ 37 ∧
      isUrlSafeChar (hexDigit x) = true := by decide

theorem pct_char_facts :
    (Char.ofNat 37).toNat = 37 ∧ isUrlSafeChar (Char.ofNat 37) = true := by decide

theorem encByteN_safe (b : Nat) (hb : b < 256) :
    ∀ ch ∈ encByteN b, isUrlSafeChar ch = true := by
  intro ch hch
  unfold encByteN at hch
  split_ifs at hch with hu
  · simp at hch
    subst hch
    exact (unreserved_char_facts b hb hu).2.2
  · have h16a : b / 16 < 16 := by omega
    have h16b : b % 16 < 16 := Nat.mod_lt _ (by norm_num)
    simp at hch
    rcases hch with hch | hch | hch <;> subst hch
    · exact pct_char_facts.2
    · exact (hexDigit_facts (b / 16) h16a).2.2
    · exact (hexDigit_facts (b % 16) h16b).2.2

theorem validPercents_cons_notPct {c : Char} (hc : c.toNat ≠ 37) (l : List Char) :
    validPercents (c :: l) = validPercents l := by
  cases l with
  | nil => simp [validPercents, hc]
  | cons a t =>
    cases t with
    | nil => simp [validPercents, hc]
    | cons b t2 => simp [validPercents, hc]

theorem validPercents_noPct (l : List Char) (h : ∀ c ∈ l, c.toNat ≠ 37)
    (rest : List Char) : validPercents (l ++ rest) = validPercents rest := by
  induction l with
  | nil => rfl
  | cons c t ih =>
    have hc := h c (List.mem_cons_self c t)
    have ht : ∀ x ∈ t, x.toNat ≠ 37 := fun x hx => h x (List.mem_cons_of_mem c hx)
    rw [List.cons_append, validPercents_cons_notPct hc, ih ht]

theorem validPercents_encBytes (bs : List Nat) (hb : ∀ b ∈ bs, b < 256)
    (rest : List Char) :
    validPercents (flatMapL encByteN bs ++ rest) = validPercents rest := by
  induction bs with
  | nil => rfl
  | cons b t ih =>
    have hb0 : b < 256 := hb b (List.mem_cons_self b t)
    have ht : ∀ x ∈ t, x < 256 := fun x hx => hb x (List.mem_cons_of_mem b hx)
    show validPercents (encByteN b ++ flatMapL encByteN t ++ rest) = validPercents rest
    rw [List.append_assoc]
    by_cases hu : isUnreservedByte b = true
    · obtain ⟨-, hne, -⟩ := unreserved_char_facts b hb0 hu
      rw [encByteN, if_pos hu, List.cons_append, List.nil_append,
        validPercents_cons_notPct hne, ih ht]
    · have h16a : b / 16 < 16 := by omega
      have h16b : b % 16 < 16 := Nat.mod_lt _ (by norm_num)
      rw [encByteN, if_neg hu]
      show validPercents
        (Char.ofNat 37 :: hexDigit (b / 16) :: hexDigit (b % 16) ::
          (flatMapL encByteN t ++ rest)) = validPercents rest
      rw [validPercents]
      simp only [pct_char_facts.1, if_pos rfl,
        (hexDigit_facts (b / 16) h16a).1, (hexDigit_facts (b % 16) h16b).1,
        Bool.true_and]
      exact ih ht

theorem enc_chars_safe (s : String) :
    ∀ ch ∈ (encodeURIComponent s).data, isUrlSafeChar ch = true := by
  intro ch hch
  have hch2 : ch ∈ flatMapL encByteN (flatMapL utf8Bytes s.data) := hch
  obtain ⟨b, hb, hchb⟩ := mem_flatMapL hch2
  exact encByteN_safe b (utf8_bytes_lt s b hb) ch hchb

theorem validPercents_enc (s : String) (rest : List Char) :
    validPercents ((encodeURIComponent s).data ++ rest) = validPercents rest := by
  exact validPercents_encBytes _ (utf8_bytes_lt s) rest

theorem urlSafe_of_asciiAlphanum {c : Char} (h : isAsciiAlphanum c = true) :
    isUrlSafeChar c = true := by
  simp [isUrlSafeChar, h]

theorem notPct_of_asciiAlphanum {c : Char} (h : isAsciiAlphanum c = true) :
    c.toNat ≠ 37 := by
  simp [isAsciiAlphanum] at h
  omega

theorem searchResultPage_valid (k country : String)
    (hc : country.data.all isAsciiAlphanum = true) :
    isValidEncodedUrl (searchResultPage k country) = true := by
  have hcm : ∀ ch ∈ country.data, isAsciiAlphanum ch = true := by
    simpa [List.all_eq_true] using hc
  have hdata : (searchResultPage k country).data =
      "https://www.google.com/search?q=".data ++
        ((encodeURIComponent k).data ++ ("&gl=".data ++ country.data)) := by
    simp [searchResultPage, String.data_append, List.append_assoc]
  have h1 : httpsChars <+: (searchResultPage k country).data := by
    rw [hdata]
    have hsplit : "https://www.google.com/search?q=".data =
        httpsChars ++ "www.google.com/search?q=".data := by decide
    rw [hsplit, List.append_assoc]
    exact List.prefix_append _ _
  have h2 : (searchResultPage k country).data.all isUrlSafeChar = true := by
    rw [hdata]
    simp only [List.all_append, Bool.and_eq_true]
    refine ⟨by decide, ?_, by decide, ?_⟩
    · rw [List.all_eq_true]
      exact fun ch hch => enc_chars_safe k ch hch
    · rw [List.all_eq_true]
      intro ch hch
      exact urlSafe_of_asciiAlphanum (hcm ch hch)
  have h3 : validPercents (searchResultPage k country).data = true := by
    rw [hdata]
    rw [validPercents_noPct _ (by decide), validPercents_enc,
      validPercents_noPct _ (by decide)]
    have h5 := validPercents_noPct country.data
      (fun c hc2 => notPct_of_asciiAlphanum (hcm c hc2)) []
    simpa using h5
  simp [isValidEncodedUrl, h1, h2, h3]

/-- Claim C3: for every keyword k and every SearchOutcome r, the
RankingResult produced by extractRanking satisfies: ranking is null if and
only if rankedUrl is null. -/
theorem claim3_ranking_null_iff_rankedUrl_null (k country : String)
    (target : Option String) (o : SearchOutcome) :
    ((extractRanking k country target o).ranking = none ↔
      (extractRanking k country target o).rankedUrl = none) := by
  cases o with
  | results items n =>
    cases target with
    | none =>
      cases items with
      | nil => simp [extractRanking]
      | cons it rest => simp [extractRanking]
    | some t =>
      cases h : items.find? (fun it => it.link == t) with
      | none => simp [extractRanking, h]
      | some it => simp [extractRanking, h]
  | empty => simp [extractRanking]
  | configError m => simp [extractRanking]
  | providerError st b => simp [extractRanking]
  | executionError m => simp [extractRanking]

/-- Claim C7: for every keyword and every SearchOutcome variant, including
Empty and every error variant, the searchResultPage field is present, has
the canonical form provider-search-base, q equal to the URL-encoded
keyword, and the gl region parameter equal to the country, and is a
syntactically valid, fully URL-encoded absolute URL. -/
theorem claim7_searchResultPage_wellformed (k country : String)
    (target : Option String) (o : SearchOutcome)
    (hc : country.data.all isAsciiAlphanum = true) :
    (extractRanking k country target o).searchResultPage =
      "https://www.google.com/search?q=" ++ encodeURIComponent k ++ "&gl=" ++ country ∧
    isValidEncodedUrl ((extractRanking k country target o).searchResultPage) = true := by
  constructor
  · rfl
  · show isValidEncodedUrl (searchResultPage k country) = true
    exact searchResultPage_valid k country hc

/-- Witness for claim C7: a keyword containing spaces, country US, and an
error outcome. -/
theorem claim7_witness :
    ("US".data.all isAsciiAlphanum = true) ∧
    ((extractRanking "best budget laptop" "US" none
        (.providerError 403 "denied")).searchResultPage =
      "https://www.google.com/search?q=" ++ encodeURIComponent "best budget laptop" ++
        "&gl=" ++ "US" ∧
    isValidEncodedUrl ((extractRanking "best budget laptop" "US" none
        (.providerError 403 "denied")).searchResultPage) = true) :=
  ⟨by decide, claim7_searchResultPage_wellformed "best budget laptop" "US" none
    (.providerError 403 "denied") (by decide)⟩

/-- Claim C8: extractRanking is a pure, deterministic function of its
inputs: two invocations with the same keyword and the same SearchOutcome
produce the same RankingResult (and, being a function of the embedding,
it has no side effects). -/
theorem claim8_extractRanking_deterministic (k1 k2 country : String)
    (target : Option String) (o1 o2 : SearchOutcome)
    (hk : k1 = k2) (ho : o1 = o2) :
    extractRanking k1 country target o1 = extractRanking k2 country target o2 := by
  rw [hk, ho]

/-- Witness for claim C8 at a concrete keyword and outcome. -/
theorem claim8_witness :
    ("foo" : String) = "foo" ∧ SearchOutcome.empty = SearchOutcome.empty ∧
    extractRanking "foo" "US" none .empty = extractRanking "foo" "US" none .empty :=
  ⟨rfl, rfl, claim8_extractRanking_deterministic "foo" "foo" "US" none .empty .empty rfl rfl⟩

/-- Claim C1: for every query and country, if the platform
case-insensitively equals the supported live platform google and either
credential is absent, blank, or equal to its known placeholder sentinel,
the search returns a ConfigurationError outcome and performs no outbound
network call. -/
theorem claim1_config_error_no_network (query platform country : String)
    (env : Env) (net : NetBehavior)
    (hp : toLowerCase platform = "google")
    (hcred : badApiKey env.apiKey = true ∨ badCx env.cx = true) :
    (∃ m, (searchWebOutcome query platform country env net).fst =
      .configError m) ∧
    (searchWebOutcome query platform country env net).snd = 0 := by
  by_cases hk : badApiKey env.apiKey = true
  · have hres : searchWebOutcome query platform country env net =
        (.configError "Google API Key (GOOGLE_API_KEY) is not configured or is set to a placeholder value in the backend.", 0) := by
      simp [searchWebOutcome, hp, hk]
    rw [hres]
    exact ⟨⟨_, rfl⟩, rfl⟩
  · have hcx : badCx env.cx = true := by
      rcases hcred with h | h
      · exact absurd h hk
      · exact h
    have hres : searchWebOutcome query platform country env net =
        (.configError "Google Custom Search Engine ID (GOOGLE_CUSTOM_SEARCH_ENGINE_ID) is not configured or is set to a placeholder value in the backend.", 0) := by
      simp [searchWebOutcome, hp, hk, hcx]
    rw [hres]
    exact ⟨⟨_, rfl⟩, rfl⟩

/-- Witness for claim C1: platform google with both credentials unset. -/
theorem claim1_witness :
    (toLowerCase "google" = "google") ∧
    (badApiKey (Env.mk none none).apiKey = true ∨ badCx (Env.mk none none).cx = true) ∧
    ((∃ m, (searchWebOutcome "foo" "google" "US" (Env.mk none none)
        (.okJson none)).fst = .configError m) ∧
    (searchWebOutcome "foo" "google" "US" (Env.mk none none) (.okJson none)).snd = 0) :=
  ⟨by decide, Or.inl (by decide),
    claim1_config_error_no_network "foo" "google" "US" (Env.mk none none)
      (.okJson none) (by decide) (Or.inl (by decide))⟩

/-- Counterexample to claim C2: a transport exception with the empty
message does not yield ExecutionError carrying the exception message; the
source substitutes the literal Unknown error for a falsy message. -/
theorem claim2_counterexample :
    (searchWebOutcome "foo" "google" "US" (Env.mk (some "k") (some "c"))
      (.fetchThrows "")).fst = .executionError "Unknown error" ∧
    (searchWebOutcome "foo" "google" "US" (Env.mk (some "k") (some "c"))
      (.fetchThrows "")).fst ≠ .executionError "" := by
  refine ⟨by decide, by decide⟩

/-- Claim C2 as amended: on the live platform with configured credentials
the outcome variant is determined exactly by the response: a non-success
HTTP status yields ProviderError with that status and body; a transport or
parse exception yields ExecutionError carrying the exception message,
except that an empty (falsy) message is replaced by the literal Unknown
error; a successful response with zero items yields Empty; otherwise
Results with the items in provider order and rank the 1-based index. -/
theorem claim2_outcome_classification (query platform country : String)
    (env : Env) (net : NetBehavior)
    (hp : toLowerCase platform = "google")
    (hk : badApiKey env.apiKey = false) (hcx : badCx env.cx = false) :
    (∀ st body, net = .httpError st body →
      (searchWebOutcome query platform country env net).fst = .providerError st body) ∧
    (∀ m, (net = .fetchThrows m ∨ net = .okParseThrows m) →
      (searchWebOutcome query platform country env net).fst =
        .executionError (if m = "" then "Unknown error" else m)) ∧
    ((net = .okJson none ∨ net = .okJson (some [])) →
      (searchWebOutcome query platform country env net).fst = .empty) ∧
    (∀ items, items ≠ [] → net = .okJson (some items) →
      (searchWebOutcome query platform country env net).fst =
        .results (rankItems items) items.length ∧
      (rankItems items).map RankedItem.link = items.map SearchItem.link ∧
      (∀ i, (hi : i < (rankItems items).length) →
        ((rankItems items).get ⟨i, hi⟩).rank = i + 1)) := by
  refine ⟨?_, ?_, ?_, ?_⟩
  · rintro st body rfl
    simp [searchWebOutcome, hp, hk, hcx]
  · rintro m (rfl | rfl) <;> by_cases hm : m = "" <;>
      simp [searchWebOutcome, hp, hk, hcx, hm]
  · rintro (rfl | rfl) <;> simp [searchWebOutcome, hp, hk, hcx]
  · rintro items hitems rfl
    have hlen : (items.length == 0) = false := by
      simp [List.length_eq_zero]
      exact hitems
    refine ⟨?_, rankItemsFrom_map_link 0 items, ?_⟩
    · simp [searchWebOutcome, hp, hk, hcx, hlen]
    · intro i hi
      have := rankItemsFrom_rank 0 items i hi
      simpa using this

/-- Witness for claim C2: configured credentials and a 403 response. -/
theorem claim2_witness :
    (toLowerCase "google" = "google") ∧
    badApiKey (Env.mk (some "k") (some "c")).apiKey = false ∧
    badCx (Env.mk (some "k") (some "c")).cx = false ∧
    ((∀ st body, (NetBehavior.httpError 403 "denied") = .httpError st body →
      (searchWebOutcome "foo" "google" "US" (Env.mk (some "k") (some "c"))
        (.httpError 403 "denied")).fst = .providerError st body) ∧
    (∀ m, ((NetBehavior.httpError 403 "denied") = .fetchThrows m ∨
        (NetBehavior.httpError 403 "denied") = .okParseThrows m) →
      (searchWebOutcome "foo" "google" "US" (Env.mk (some "k") (some "c"))
        (.httpError 403 "denied")).fst =
          .executionError (if m = "" then "Unknown error" else m)) ∧
    (((NetBehavior.httpError 403 "denied") = .okJson none ∨
        (NetBehavior.httpError 403 "denied") = .okJson (some [])) →
      (searchWebOutcome "foo" "google" "US" (Env.mk (some "k") (some "c"))
        (.httpError 403 "denied")).fst = .empty) ∧
    (∀ items, items ≠ [] → (NetBehavior.httpError 403 "denied") = .okJson (some items) →
      (searchWebOutcome "foo" "google" "US" (Env.mk (some "k") (some "c"))
        (.httpError 403 "denied")).fst = .results (rankItems items) items.length ∧
      (rankItems items).map RankedItem.link = items.map SearchItem.link ∧
      (∀ i, (hi : i < (rankItems items).length) →
        ((rankItems items).get ⟨i, hi⟩).rank = i + 1))) :=
  ⟨by decide, by decide, by decide,
    claim2_outcome_classification "foo" "google" "US" (Env.mk (some "k") (some "c"))
      (.httpError 403 "denied") (by decide) (by decide) (by decide)⟩

/-- Claim C4: for every query, country, and platform whose lower-cased
value differs from google, the search returns a deterministic placeholder
Results sequence of synthetic items whose links contain the URL-encoded
query (in particular the first one) and whose rank fields are sequential
starting at 1; the result does not depend on the environment or the
network. -/
theorem claim4_placeholder_results (query platform country : String)
    (env : Env) (net : NetBehavior)
    (hp : toLowerCase platform ≠ "google") :
    ∃ ritems n,
      (searchWebOutcome query platform country env net).fst = .results ritems n ∧
      ritems.length = 3 ∧
      (∀ it ∈ ritems, (encodeURIComponent query).data <:+: it.link.data) ∧
      (∀ i, (hi : i < ritems.length) → (ritems.get ⟨i, hi⟩).rank = i + 1) ∧
      (∀ env2 net2, searchWebOutcome query platform country env2 net2 =
        searchWebOutcome query platform country env net) := by
  refine ⟨rankItems (placeholderItems query platform),
    (placeholderItems query platform).length, ?_, ?_, ?_, ?_, ?_⟩
  · simp [searchWebOutcome, hp]
  · simp [rankItems, rankItemsFrom_length, placeholderItems]
  · intro it hit
    have hinf : ∀ pre : String,
        (encodeURIComponent query).data <:+: (pre ++ encodeURIComponent query).data := by
      intro pre
      rw [String.data_append]
      exact (List.suffix_append _ _).isInfix
    simp only [rankItems, placeholderItems, rankItemsFrom, List.mem_cons,
      List.not_mem_nil, or_false] at hit
    rcases hit with rfl | rfl | rfl <;> exact hinf _
  · intro i hi
    have := rankItemsFrom_rank 0 (placeholderItems query platform) i hi
    simpa [rankItems] using this
  · intro env2 net2
    simp [searchWebOutcome, hp]

/-- Witness for claim C4: platform facebook. -/
theorem claim4_witness :
    (toLowerCase "facebook" ≠ "google") ∧
    (∃ ritems n,
      (searchWebOutcome "foo" "facebook" "US" (Env.mk none none)
        (.okJson none)).fst = .results ritems n ∧
      ritems.length = 3 ∧
      (∀ it ∈ ritems, (encodeURIComponent "foo").data <:+: it.link.data) ∧
      (∀ i, (hi : i < ritems.length) → (ritems.get ⟨i, hi⟩).rank = i + 1) ∧
      (∀ env2 net2, searchWebOutcome "foo" "facebook" "US" env2 net2 =
        searchWebOutcome "foo" "facebook" "US" (Env.mk none none) (.okJson none))) :=
  ⟨by decide,
    claim4_placeholder_results "foo" "facebook" "US" (Env.mk none none)
      (.okJson none) (by decide)⟩

/-- Claim C9: the searchWeb tool is total at its interface: for every
input and every behaviour of the environment it returns a string and never
propagates an exception (an Except.error) to its caller. -/
theorem claim9_searchWeb_total (query platform country : String)
    (env : Env) (net : NetBehavior) :
    ∃ s, searchWeb query platform country env net = Except.ok s := by
  unfold searchWeb
  split
  · exact ⟨_, rfl⟩
  · split
    · exact ⟨_, rfl⟩
    · split
      · exact ⟨_, rfl⟩
      · cases h : tryBlock query country net with
        | ok s => exact ⟨s, by simp [h]⟩
        | error e => exact ⟨execErrorHtml e, by simp [h]⟩

/-- Claim C5: if the prompt step yields no structured output, the flow
falls back to the empty result set instead of failing the request: empty
rankings and empty suggestions in the extended variant, and the empty
array in the simple variant. -/
theorem claim5_empty_fallback :
    checkKeywordRankingFlow none =
      { originalKeywordRankings := some []
      , relatedKeywordSuggestions := some [] } ∧
    checkKeywordRankingFlowSimple none = [] :=
  ⟨rfl, rfl⟩

/-- Claim C10: the extended flow always returns both fields bound to
arrays (possibly empty), never absent: on every path the result carries
some list in originalKeywordRankings and in relatedKeywordSuggestions. -/
theorem claim10_fields_always_arrays (promptOut : Option RawCheckOutput) :
    ∃ rks sugg, checkKeywordRankingFlow promptOut =
      { originalKeywordRankings := some rks
      , relatedKeywordSuggestions := some sugg } := by
  cases promptOut with
  | none => exact ⟨[], [], rfl⟩
  | some output => exact ⟨_, _, rfl⟩

/-- Counterexample to claim C6: the output schema validates a
relatedKeywordSuggestions array of seven fully populated items, and the
flow passes it through unchanged, so the code does not bound the number of
emitted suggestions by six. -/
theorem claim6_counterexample :
    validSuggestions (some (List.replicate 7 sampleSuggestion)) = true ∧
    (checkKeywordRankingFlow (some
      { originalKeywordRankings := some []
      , relatedKeywordSuggestions := some (List.replicate 7 sampleSuggestion)
      })).relatedKeywordSuggestions = some (List.replicate 7 sampleSuggestion) ∧
    ¬ (List.replicate 7 sampleSuggestion).length ≤ 6 :=
  ⟨by decide, rfl, by decide⟩

/-- Claim C6 as amended: every suggestion accepted by the schema is fully
populated: all five fields present, competition one of High, Medium, Low,
N/A (the literal N/A standing in for an unestimable field); the suggestion
count is not bounded by the schema. -/
theorem claim6_amended_full_population (l : List RawSuggestion)
    (h : validSuggestions (some l) = true) :
    ∀ r ∈ l, r.relatedKeyword.isSome = true ∧
      (∃ c, r.competition = some c ∧ c ∈ competitionLevels) ∧
      r.searchVolume.isSome = true ∧ r.last30DaysSearches.isSome = true ∧
      r.last24HoursSearches.isSome = true := by
  intro r hr
  have hv : validSuggestion r = true := List.all_eq_true.mp h r hr
  unfold validSuggestion at hv
  simp only [Bool.and_eq_true] at hv
  obtain ⟨⟨⟨⟨h1, h2⟩, h3⟩, h4⟩, h5⟩ := hv
  refine ⟨h1, ?_, h3, h4, h5⟩
  cases hc : r.competition with
  | none => rw [hc] at h2; exact absurd h2 (by simp)
  | some c =>
    rw [hc] at h2
    refine ⟨c, rfl, ?_⟩
    simpa using h2

/-- Witness for the amended claim C6 at a one-element list. -/
theorem claim6_amended_witness :
    validSuggestions (some [sampleSuggestion]) = true ∧
    (∀ r ∈ [sampleSuggestion], r.relatedKeyword.isSome = true ∧
      (∃ c, r.competition = some c ∧ c ∈ competitionLevels) ∧
      r.searchVolume.isSome = true ∧ r.last30DaysSearches.isSome = true ∧
      r.last24HoursSearches.isSome = true) :=
  ⟨by decide, claim6_amended_full_population [sampleSuggestion] (by decide)⟩
